import Mathlib

/-
  Verification of the AP firmware updater core (futility/updater.c).

  Shallow embedding conventions:
  * C byte buffers are List Nat (each entry one byte value).
  * A NULL data pointer of struct firmware_image is modelled by an empty list.
  * External collaborators (flashrom, cbfstool, the keyblock verifier, the
    GBB header validator, quirk apply functions from updater_quirks.c, and
    the crossystem setters) are oracles collected in the updater_env
    structure; the updater core under src only branches on their results.
  * The cached system-property values consulted by the orchestrator are
    carried as fields of updater_config; the cache mechanism itself is
    modelled separately by get_system_property / override_system_property.
  * Write operations are traced: each write_firmware invocation appends the
    pair (programmer, optional FMAP target) to a trace list.
-/

/- FMAP section names, from updater.h. -/

def FMAP_RO_FRID : String := "RO_FRID"

def FMAP_RO_SECTION : String := "RO_SECTION"

def FMAP_RW_VBLOCK_A : String := "VBLOCK_A"

def FMAP_RW_SECTION_A : String := "RW_SECTION_A"

def FMAP_RW_SECTION_B : String := "RW_SECTION_B"

def FMAP_RW_SHARED : String := "RW_SHARED"

def FMAP_RW_LEGACY : String := "RW_LEGACY"

def FWACT_A : String := "A"

def FWACT_B : String := "B"

/-- WP_DISABLED from enum wp_state. -/
def WP_DISABLED : Int := 0

/-- WP_ENABLED from enum wp_state. -/
def WP_ENABLED : Int := 1

/-- Enum target_type from updater.c. -/
inductive target_type where
  | TARGET_SELF
  | TARGET_UPDATE
deriving DecidableEq, Repr

/-- Enum updater_error_codes from updater.h. -/
inductive updater_error_codes where
  | UPDATE_ERR_DONE
  | UPDATE_ERR_NEED_RO_UPDATE
  | UPDATE_ERR_NO_IMAGE
  | UPDATE_ERR_SYSTEM_IMAGE
  | UPDATE_ERR_INVALID_IMAGE
  | UPDATE_ERR_SET_COOKIES
  | UPDATE_ERR_WRITE_FIRMWARE
  | UPDATE_ERR_PLATFORM
  | UPDATE_ERR_TARGET
  | UPDATE_ERR_ROOT_KEY
  | UPDATE_ERR_TPM_ROLLBACK
  | UPDATE_ERR_UNKNOWN
deriving DecidableEq, Repr

/-- Enum quirk_types from updater.h. -/
inductive quirk_types where
  | QUIRK_ENLARGE_IMAGE
  | QUIRK_MIN_PLATFORM_VERSION
  | QUIRK_UNLOCK_ME_FOR_UPDATE
  | QUIRK_DAISY_SNOW_DUAL_MODEL
  | QUIRK_EVE_SMM_STORE
deriving DecidableEq, Repr

/-- One named FMAP area: the (name, offset, size) triple returned by the
FMAP parser interface. -/
structure FmapArea where
  name : String
  offset : Nat
  size : Nat
deriving DecidableEq, Repr

/-- Struct firmware_image from updater.h: the flat byte buffer, the parsed
FMAP index, the extracted version strings (held as byte lists of the C
strings, without the terminating NUL) and the programmer tag. An image with
data = [] models a struct whose data pointer is NULL. -/
structure firmware_image where
  data : List Nat
  fmap : List FmapArea
  ro_version : List Nat
  rw_version_a : List Nat
  rw_version_b : List Nat
  programmer : String
deriving DecidableEq, Repr

/-- Struct firmware_section from updater.h: data is the offset of the area
inside the image buffer (none models a NULL pointer), size its length. -/
structure firmware_section where
  data : Option Nat
  size : Nat
deriving DecidableEq, Repr

/-- The FMAP lookup consumed through fmap_find_by_name: first area with the
given name. -/
def fmap_find_by_name (fmap : List FmapArea) (name : String) : Option FmapArea :=
  fmap.find? (fun a => a.name = name)

/-- find_firmware_section from updater.c: on failure the section carries a
NULL data pointer and size zero, exactly as the source initializes it. -/
def find_firmware_section (image : firmware_image) (section_name : String) :
    firmware_section :=
  match fmap_find_by_name image.fmap section_name with
  | none => { data := none, size := 0 }
  | some a => { data := some a.offset, size := a.size }

/-- firmware_section_exists from updater.c. -/
def firmware_section_exists (image : firmware_image) (section_name : String) :
    Bool :=
  (find_firmware_section image section_name).data.isSome

/-- The bytes of a located firmware section inside its image. -/
def section_bytes (image : firmware_image) (s : firmware_section) : List Nat :=
  match s.data with
  | none => []
  | some off => (image.data.drop off).take s.size

/-- In-place byte store: the result agrees with src (shifted by off) on the
interval [off, off + src.length) and with dst everywhere else; the length
of dst is preserved. This models the memmove / memcpy calls of the source,
which are only reached with in-bounds section handles. -/
def write_slice (dst : List Nat) (off : Nat) (src : List Nat) : List Nat :=
  (List.range dst.length).map (fun i =>
    if off ≤ i ∧ i < off + src.length then src.getD (i - off) 0 else dst.getD i 0)

/-- preserve_firmware_section from updater.c: locate the section in both
images, fail (-1, unchanged destination) if either lookup fails, else copy
min(from.size, to.size) bytes from the source area onto the destination
area (a larger source is truncated with only a warning). -/
def preserve_firmware_section (image_from image_to : firmware_image)
    (section_name : String) : Int × firmware_image :=
  let sec_from := find_firmware_section image_from section_name
  let sec_to := find_firmware_section image_to section_name
  match sec_from.data, sec_to.data with
  | some from_off, some to_off =>
      let n := min sec_from.size sec_to.size
      let src := (image_from.data.drop from_off).take n
      (0, { image_to with data := write_slice image_to.data to_off src })
  | _, _ => (-1, image_to)

/-- compare_section from updater.c: sizes first (their difference is the
nonzero result), then the bytes (memcmp, of which only zero versus nonzero
is consumed by callers). -/
def compare_section (image_a image_b : firmware_image)
    (a b : firmware_section) : Int :=
  if a.size ≠ b.size then (a.size : Int) - (b.size : Int)
  else if section_bytes image_a a = section_bytes image_b b then 0 else 1

/-- section_needs_update from updater.c: with a NULL section name the whole
buffers are compared, otherwise the located sections are compared. -/
def section_needs_update (image_from image_to : firmware_image)
    (section_name : Option String) : Int :=
  match section_name with
  | none =>
      if image_from.data.length ≠ image_to.data.length then -1
      else if image_from.data = image_to.data then 0 else 1
  | some n =>
      compare_section image_from image_to
        (find_firmware_section image_from n)
        (find_firmware_section image_to n)

/-- is_write_protection_enabled from updater.c, applied to the two cached
property values SYS_PROP_WP_HW and SYS_PROP_WP_SW. -/
def is_write_protection_enabled (wp_hw wp_sw : Int) : Int :=
  let wp := wp_hw
  if wp = WP_DISABLED then wp
  else
    let wp := wp_sw
    if wp ≠ WP_DISABLED then WP_ENABLED
    else wp

/-- strchr over a C string held as a NUL-free byte list: index of the first
occurrence of c. -/
def strchr (s : List Nat) (c : Nat) : Option Nat :=
  match s with
  | [] => none
  | x :: xs => if x = c then some 0 else (strchr xs c).map (· + 1)

/-- check_compatible_platform from updater.c: both ro_version strings must
contain a dot; the byte area up to and including the first dot of the
current version must agree (strncmp over NUL-free byte lists is equality of
the corresponding take). -/
def check_compatible_platform (image_from image_to : firmware_image) : Int :=
  match strchr image_from.ro_version 46, strchr image_to.ro_version 46 with
  | some from_idx, some _ =>
      let len := from_idx + 1
      if image_from.ro_version.take len = image_to.ro_version.take len then 0
      else -1
  | _, _ => -1

/-- The few vb2_keyblock fields the updater reads. -/
structure vb2_keyblock where
  keyblock_size : Nat
  data_key_version : Nat
deriving DecidableEq, Repr

/-- The single vb2_fw_preamble field the updater reads. -/
structure vb2_fw_preamble where
  firmware_version : Nat
deriving DecidableEq, Repr

/-- A packed public key, kept as its raw bytes (the key is only handed to
the external verifier). -/
structure vb2_packed_key where
  bytes : List Nat
deriving DecidableEq, Repr

/-- System property cache entry, struct system_property from updater.h. -/
structure system_property where
  value : Int
  initialized : Bool
deriving DecidableEq, Repr

/-- get_system_property from updater.c, acting on one cache entry. The
argument getter_now is the value the underlying getter would return at this
call. The result is (returned value, new cache entry, whether the getter
was invoked). -/
def get_system_property (getter_now : Int) (prop : system_property) :
    Int × system_property × Bool :=
  if prop.initialized then (prop.value, prop, false)
  else (getter_now, { value := getter_now, initialized := true }, true)

/-- override_system_property from updater.c: pre-seed the cache entry. -/
def override_system_property (value : Int) (_prop : system_property) :
    system_property :=
  { value := value, initialized := true }

/-- A sequence of get_system_property calls on one entry; getter_vals are
the values the underlying getter would return at each call. The result is
(returned values, final entry, number of getter invocations). -/
def get_system_property_many (getter_vals : List Int) (prop : system_property) :
    List Int × system_property × Nat :=
  match getter_vals with
  | [] => ([], prop, 0)
  | v :: vs =>
      let r := get_system_property v prop
      let rest := get_system_property_many vs r.2.1
      (r.1 :: rest.1, rest.2.1, (if r.2.2 then 1 else 0) + rest.2.2)

/-- External collaborators of the updater core, per the interfaces the
source consumes. Each field is the observable outcome of one external call:
flashrom writes, cbfstool queries, the destructive keyblock verifier, the
GBB header validator with its root key extraction, struct decoding of
keyblock and preamble bytes, the crossystem setters, temp file creation and
quirk apply functions (updater_quirks.c, outside src). The byte-level
effects of preserve_gbb and preserve_images on the candidate buffer enter
as image transformers; their decision logic is modelled separately. -/
structure updater_env where
  kb_sz : Nat
  pre_sz : Nat
  decode_kb : List Nat → vb2_keyblock
  decode_pre : List Nat → vb2_fw_preamble
  gbb_found : firmware_image → Bool
  rootkey : firmware_image → Option vb2_packed_key
  verify_ok : List Nat → vb2_packed_key → Bool
  flash_ok : String → Option String → Bool
  cbfs_file_exists : firmware_image → String → String → Bool
  tmpfile_ok : Bool
  set_try_next_ok : String → Bool
  set_try_count_ok : Nat → Bool
  preserve_gbb_fx : firmware_image → firmware_image → firmware_image
  preserve_images_fx : firmware_image → firmware_image → firmware_image
  load_system_ok : Bool
  system_image : firmware_image
  apply_quirk : quirk_types → Int

/-- Struct updater_config from updater.h, restricted to what the update
decision engine reads. The system-property fields hold the cached values
the orchestrator obtains through get_system_property. -/
structure updater_config where
  image : firmware_image
  image_current : firmware_image
  ec_image : firmware_image
  pd_image : firmware_image
  mainfw_act : Int
  tpm_fwver : Int
  fw_vboot2 : Int
  wp_hw : Int
  wp_sw : Int
  try_update : Bool
  force_update : Bool
  legacy_update : Bool
  emulation : Bool
  quirks : quirk_types → Int

/-- try_apply_quirk from updater.c: a quirk with value zero is a no-op; an
enabled quirk runs its apply function (updater_quirks.c, external) and
returns its result. -/
def try_apply_quirk (env : updater_env) (cfg : updater_config)
    (quirk : quirk_types) : Int :=
  if cfg.quirks quirk = 0 then 0 else env.apply_quirk quirk

/-- get_keyblock from updater.c: locate the section; if its size is below
sizeof(vb2_keyblock) + sizeof(vb2_fw_preamble) the result is NULL (an
absent section has size zero and therefore also fails). On success the raw
section bytes stand for the returned keyblock pointer; no field of the
section has been interpreted. -/
def get_keyblock (env : updater_env) (image : firmware_image)
    (section_name : String) : Option (List Nat) :=
  let s := find_firmware_section image section_name
  if s.size < env.kb_sz + env.pre_sz then none
  else
    match s.data with
    | none => none
    | some _ => some (section_bytes image s)

/-- get_key_versions from updater.c: decode the keyblock at the start of
the section, then the preamble keyblock_size bytes further in, and return
(data key version, firmware version); failure of get_keyblock propagates. -/
def get_key_versions (env : updater_env) (image : firmware_image)
    (section_name : String) : Option (Nat × Nat) :=
  match get_keyblock env image section_name with
  | none => none
  | some keyblock_bytes =>
      let keyblock := env.decode_kb keyblock_bytes
      let pre := env.decode_pre (keyblock_bytes.drop keyblock.keyblock_size)
      some (keyblock.data_key_version, pre.firmware_version)

/-- check_compatible_root_key from updater.c: find the GBB of the RO image
and its root key (find_gbb and get_rootkey, resolved by the external GBB
validator), the keyblock at VBLOCK_A of the RW image, then verify. Every
missing piece and a failed verification yield -1. -/
def check_compatible_root_key (env : updater_env)
    (ro_image rw_image : firmware_image) : Int :=
  if env.gbb_found ro_image = false then -1
  else
    match env.rootkey ro_image with
    | none => -1
    | some root_key =>
        match get_keyblock env rw_image FMAP_RW_VBLOCK_A with
        | none => -1
        | some keyblock_bytes =>
            if env.verify_ok keyblock_bytes root_key then 0 else -1

/-- do_check_compatible_tpm_keys from updater.c: decode the candidate
versions from VBLOCK_A, reject a negative cached tpm_fwver, unpack the TPM
value as upper 16 = data key version and lower 16 = firmware version, and
fail on either rollback. -/
def do_check_compatible_tpm_keys (env : updater_env) (cfg : updater_config)
    (rw_image : firmware_image) : Int :=
  match get_key_versions env rw_image FMAP_RW_VBLOCK_A with
  | none => -1
  | some kv =>
      let data_key_version := kv.1
      let firmware_version := kv.2
      if cfg.tpm_fwver < 0 then -1
      else
        let tpm_data_key_version := cfg.tpm_fwver.toNat >>> 16
        let tpm_firmware_version := cfg.tpm_fwver.toNat &&& 65535
        if data_key_version < tpm_data_key_version then -1
        else if firmware_version < tpm_firmware_version then -1
        else 0

/-- check_compatible_tpm_keys from updater.c: the wrapper that waives a
failing check when force_update is set (after warning the caller). -/
def check_compatible_tpm_keys (env : updater_env) (cfg : updater_config)
    (rw_image : firmware_image) : Int :=
  let r := do_check_compatible_tpm_keys env cfg rw_image
  if r = 0 then r
  else if cfg.force_update = false then r
  else 0

/-- decide_rw_target from updater.c, applied to the cached
SYS_PROP_MAINFW_ACT value (SLOT_A = 0, SLOT_B = 1, anything else unknown).
vboot1 always chooses UPDATE = B and SELF = A; vboot2 flips with the active
slot and yields no target for an unknown slot. -/
def decide_rw_target (slot : Int) (target : target_type) (is_vboot2 : Int) :
    Option String :=
  if is_vboot2 = 0 then
    some (if target = target_type.TARGET_UPDATE then FMAP_RW_SECTION_B
          else FMAP_RW_SECTION_A)
  else if slot = 0 then
    some (if target = target_type.TARGET_UPDATE then FMAP_RW_SECTION_B
          else FMAP_RW_SECTION_A)
  else if slot = 1 then
    some (if target = target_type.TARGET_UPDATE then FMAP_RW_SECTION_A
          else FMAP_RW_SECTION_B)
  else none

/-- A trace of issued firmware writes: (programmer, optional FMAP section),
one entry per write_firmware invocation. -/
abbrev write_trace := List (String × Option String)

/-- write_firmware from updater.c: one write through the flasher (or the
emulation path); the environment decides success. The trace records the
issued write. -/
def write_firmware (env : updater_env) (image : firmware_image)
    (section_name : Option String) : Int × write_trace :=
  ((if env.flash_ok image.programmer section_name then 0 else -1),
   [(image.programmer, section_name)])

/-- write_optional_firmware from updater.c: silently succeed when the image
has no data or the named section is absent from it. -/
def write_optional_firmware (env : updater_env) (image : firmware_image)
    (section_name : Option String) : Int × write_trace :=
  if image.data = [] then (0, [])
  else
    match section_name with
    | some n =>
        if firmware_section_exists image n = false then (0, [])
        else write_firmware env image section_name
    | none => write_firmware env image none

/-- set_try_cookies from updater.c: 6 tries, 8 when an EC image is staged;
the target section maps to slot A or B, anything else is an internal error;
under emulation the cookies are only printed; otherwise fw_try_next is set
for vboot2 and fw_try_count always, either setter may fail. -/
def set_try_cookies (env : updater_env) (cfg : updater_config)
    (target : Option String) : Int :=
  let tries : Nat := if cfg.ec_image.data = [] then 6 else 8
  let slot : Option String :=
    if target = some FMAP_RW_SECTION_A then some FWACT_A
    else if target = some FMAP_RW_SECTION_B then some FWACT_B
    else none
  match slot with
  | none => -1
  | some s =>
      if cfg.emulation then 0
      else if cfg.fw_vboot2 ≠ 0 ∧ env.set_try_next_ok s = false then -1
      else if env.set_try_count_ok tries = false then -1
      else 0

/-- legacy_needs_update from updater.c: the candidate image is dumped to a
temp file (tmp_path); the source then queries cbfstool twice on that same
temp file for the tag cros_allow_auto_update, for has_to as well as for
has_from, and when both hold compares the RW_LEGACY sections of the current
and candidate images. -/
def legacy_needs_update (env : updater_env)
    (image_current image : firmware_image) : Bool :=
  if env.tmpfile_ok = false then false
  else
    let tag := "cros_allow_auto_update"
    let has_to := env.cbfs_file_exists image FMAP_RW_LEGACY tag
    let has_from := env.cbfs_file_exists image FMAP_RW_LEGACY tag
    if has_from = false ∨ has_to = false then false
    else decide (section_needs_update image_current image (some FMAP_RW_LEGACY) ≠ 0)

/-- update_try_rw_firmware from updater.c (Strategy B). preserve_gbb runs
first (its byte effect enters through the environment, its result is
ignored); then the RO diff gate when write protection is off, the root key
and TPM checks, target selection, the optional slot write with try cookies,
and the independent non-fatal legacy write. -/
def update_try_rw_firmware (env : updater_env) (cfg : updater_config)
    (image_from image_to0 : firmware_image) (wp_enabled : Int) :
    updater_error_codes × write_trace :=
  let is_vboot2 := cfg.fw_vboot2
  let image_to := env.preserve_gbb_fx image_from image_to0
  if wp_enabled = 0 ∧
      section_needs_update image_from image_to (some FMAP_RO_SECTION) ≠ 0 then
    (updater_error_codes.UPDATE_ERR_NEED_RO_UPDATE, [])
  else if check_compatible_root_key env image_from image_to ≠ 0 then
    (updater_error_codes.UPDATE_ERR_ROOT_KEY, [])
  else if check_compatible_tpm_keys env cfg image_to ≠ 0 then
    (updater_error_codes.UPDATE_ERR_TPM_ROLLBACK, [])
  else
    match decide_rw_target cfg.mainfw_act target_type.TARGET_SELF is_vboot2 with
    | none => (updater_error_codes.UPDATE_ERR_TARGET, [])
    | some self_name =>
        if firmware_section_exists image_to self_name = false then
          (updater_error_codes.UPDATE_ERR_INVALID_IMAGE, [])
        else
          let has_update : Bool :=
            if cfg.force_update then true
            else decide
              (section_needs_update image_from image_to (some self_name) ≠ 0)
          if has_update then
            let target :=
              decide_rw_target cfg.mainfw_act target_type.TARGET_UPDATE is_vboot2
            let w := write_firmware env image_to target
            if w.1 ≠ 0 then
              (updater_error_codes.UPDATE_ERR_WRITE_FIRMWARE, w.2)
            else if set_try_cookies env cfg target ≠ 0 then
              (updater_error_codes.UPDATE_ERR_SET_COOKIES, w.2)
            else if legacy_needs_update env image_from image_to then
              let wl := write_firmware env image_to (some FMAP_RW_LEGACY)
              (updater_error_codes.UPDATE_ERR_DONE, w.2 ++ wl.2)
            else (updater_error_codes.UPDATE_ERR_DONE, w.2)
          else
            if legacy_needs_update env image_from image_to then
              let wl := write_firmware env image_to (some FMAP_RW_LEGACY)
              (updater_error_codes.UPDATE_ERR_DONE, wl.2)
            else (updater_error_codes.UPDATE_ERR_DONE, [])

/-- update_rw_firmrware from updater.c (Strategy C, name kept as in the
source): root key and TPM checks, then writes to RW_SECTION_A,
RW_SECTION_B, RW_SHARED and optionally RW_LEGACY, short-circuiting on the
first failure. -/
def update_rw_firmrware (env : updater_env) (cfg : updater_config)
    (image_from image_to : firmware_image) :
    updater_error_codes × write_trace :=
  if check_compatible_root_key env image_from image_to ≠ 0 then
    (updater_error_codes.UPDATE_ERR_ROOT_KEY, [])
  else if check_compatible_tpm_keys env cfg image_to ≠ 0 then
    (updater_error_codes.UPDATE_ERR_TPM_ROLLBACK, [])
  else
    let wa := write_firmware env image_to (some FMAP_RW_SECTION_A)
    if wa.1 ≠ 0 then
      (updater_error_codes.UPDATE_ERR_WRITE_FIRMWARE, wa.2)
    else
      let wb := write_firmware env image_to (some FMAP_RW_SECTION_B)
      if wb.1 ≠ 0 then
        (updater_error_codes.UPDATE_ERR_WRITE_FIRMWARE, wa.2 ++ wb.2)
      else
        let ws := write_firmware env image_to (some FMAP_RW_SHARED)
        if ws.1 ≠ 0 then
          (updater_error_codes.UPDATE_ERR_WRITE_FIRMWARE, wa.2 ++ wb.2 ++ ws.2)
        else
          let wl := write_optional_firmware env image_to (some FMAP_RW_LEGACY)
          if wl.1 ≠ 0 then
            (updater_error_codes.UPDATE_ERR_WRITE_FIRMWARE,
             wa.2 ++ wb.2 ++ ws.2 ++ wl.2)
          else
            (updater_error_codes.UPDATE_ERR_DONE,
             wa.2 ++ wb.2 ++ ws.2 ++ wl.2)

/-- update_legacy_firmware from updater.c (Strategy A). -/
def update_legacy_firmware (env : updater_env) (image_to : firmware_image) :
    updater_error_codes × write_trace :=
  let w := write_firmware env image_to (some FMAP_RW_LEGACY)
  if w.1 ≠ 0 then (updater_error_codes.UPDATE_ERR_WRITE_FIRMWARE, w.2)
  else (updater_error_codes.UPDATE_ERR_DONE, w.2)

/-- update_whole_firmware from updater.c (Strategy D): best-effort
preservation (byte effect through the environment, failures only logged),
TPM check, then the whole-image write followed by optional EC and PD
writes. -/
def update_whole_firmware (env : updater_env) (cfg : updater_config)
    (image_from image_to0 : firmware_image) :
    updater_error_codes × write_trace :=
  let image_to := env.preserve_images_fx image_from image_to0
  if check_compatible_tpm_keys env cfg image_to ≠ 0 then
    (updater_error_codes.UPDATE_ERR_TPM_ROLLBACK, [])
  else
    let w1 := write_firmware env image_to none
    if w1.1 ≠ 0 then (updater_error_codes.UPDATE_ERR_WRITE_FIRMWARE, w1.2)
    else
      let w2 := write_optional_firmware env cfg.ec_image none
      if w2.1 ≠ 0 then
        (updater_error_codes.UPDATE_ERR_WRITE_FIRMWARE, w1.2 ++ w2.2)
      else
        let w3 := write_optional_firmware env cfg.pd_image none
        if w3.1 ≠ 0 then
          (updater_error_codes.UPDATE_ERR_WRITE_FIRMWARE, w1.2 ++ w2.2 ++ w3.2)
        else (updater_error_codes.UPDATE_ERR_DONE, w1.2 ++ w2.2 ++ w3.2)

/-- update_firmware from updater.c: candidate presence, quirks, loading the
current system image when absent, the platform check, write protection
computation, then strategy selection (legacy, try-RW with NEED_RO_UPDATE
fallthrough, RW-only under write protection, else full). When try-RW falls
through, the candidate carries the GBB preserved by the aborted try run. -/
def update_firmware (env : updater_env) (cfg : updater_config) :
    updater_error_codes × write_trace :=
  let image_to := cfg.image
  if image_to.data = [] then (updater_error_codes.UPDATE_ERR_NO_IMAGE, [])
  else if try_apply_quirk env cfg quirk_types.QUIRK_DAISY_SNOW_DUAL_MODEL ≠ 0 then
    (updater_error_codes.UPDATE_ERR_PLATFORM, [])
  else if try_apply_quirk env cfg quirk_types.QUIRK_MIN_PLATFORM_VERSION ≠ 0 then
    (updater_error_codes.UPDATE_ERR_PLATFORM, [])
  else
    let loaded : Option firmware_image :=
      if cfg.image_current.data = [] then
        (if env.load_system_ok then some env.system_image else none)
      else some cfg.image_current
    match loaded with
    | none => (updater_error_codes.UPDATE_ERR_SYSTEM_IMAGE, [])
    | some image_from =>
        if check_compatible_platform image_from image_to ≠ 0 then
          (updater_error_codes.UPDATE_ERR_PLATFORM, [])
        else
          let wp_enabled := is_write_protection_enabled cfg.wp_hw cfg.wp_sw
          if try_apply_quirk env cfg quirk_types.QUIRK_ENLARGE_IMAGE ≠ 0 then
            (updater_error_codes.UPDATE_ERR_SYSTEM_IMAGE, [])
          else if try_apply_quirk env cfg quirk_types.QUIRK_EVE_SMM_STORE ≠ 0 then
            (updater_error_codes.UPDATE_ERR_INVALID_IMAGE, [])
          else if cfg.legacy_update then update_legacy_firmware env image_to
          else if cfg.try_update then
            let r := update_try_rw_firmware env cfg image_from image_to wp_enabled
            if r.1 ≠ updater_error_codes.UPDATE_ERR_NEED_RO_UPDATE then r
            else
              let image_to1 := env.preserve_gbb_fx image_from image_to
              if wp_enabled ≠ 0 then
                update_rw_firmrware env cfg image_from image_to1
              else update_whole_firmware env cfg image_from image_to1
          else if wp_enabled ≠ 0 then
            update_rw_firmrware env cfg image_from image_to
          else update_whole_firmware env cfg image_from image_to

/-- Two consecutive update_firmware runs with identical inputs and no
external state change. -/
def update_firmware_twice (env : updater_env) (cfg : updater_config) :
    (updater_error_codes × write_trace) × (updater_error_codes × write_trace) :=
  (update_firmware env cfg, update_firmware env cfg)

/-- strlen over a byte area holding a C string: number of bytes before the
first NUL. A valid GBB header guarantees the HWID area contains its NUL
terminator within hwid_size. -/
def strlen (s : List Nat) : Nat :=
  (s.takeWhile (fun b => b ≠ 0)).length

/-- The vb2_gbb_header fields read and written by preserve_gbb, together
with the bytes of the HWID area the header points at (hwid_offset is
folded into the area view). -/
structure vb2_gbb_header where
  flags : Nat
  hwid_size : Nat
  hwid_area : List Nat
deriving DecidableEq, Repr

/-- A firmware image viewed through find_gbb: either a validated GBB
header or none (header absent or rejected by the validator). -/
structure gbb_image where
  gbb : Option vb2_gbb_header
deriving DecidableEq, Repr

/-- preserve_gbb from updater.c: fail when either GBB is missing; copy the
flags; then compute the source HWID length and fail if it does not fit the
destination capacity (the flags have already been stored at that point, as
in the source, where gbb_to flags assignment precedes the length check);
on success zero the whole destination HWID area and copy the HWID in. -/
def preserve_gbb (image_from image_to : gbb_image) : Int × gbb_image :=
  match image_from.gbb, image_to.gbb with
  | some gbb_from, some gbb_to0 =>
      let gbb_to := { gbb_to0 with flags := gbb_from.flags }
      let len := strlen gbb_from.hwid_area
      if len ≥ gbb_to.hwid_size then (-1, { image_to with gbb := some gbb_to })
      else
        let hwid := gbb_from.hwid_area.take len ++
          List.replicate (gbb_to.hwid_size - len) 0
        (0, { image_to with gbb := some { gbb_to with hwid_area := hwid } })
  | _, _ => (-1, image_to)

/- Concrete fixtures used by witnesses and counterexamples. -/

/-- An image with a NULL data pointer. -/
def null_image : firmware_image :=
  { data := [], fmap := [], ro_version := [], rw_version_a := [],
    rw_version_b := [], programmer := "host" }

/-- A small FMAP shared by the test images. -/
def test_fmap : List FmapArea :=
  [ { name := "RO_FRID", offset := 0, size := 2 },
    { name := "RO_SECTION", offset := 0, size := 2 },
    { name := "VBLOCK_A", offset := 2, size := 2 },
    { name := "RW_SECTION_A", offset := 2, size := 2 },
    { name := "RW_SECTION_B", offset := 4, size := 1 },
    { name := "RW_SHARED", offset := 5, size := 1 },
    { name := "RW_LEGACY", offset := 6, size := 1 } ]

/-- The current system image: RO bytes 9 9, RW bytes 1. -/
def img_current : firmware_image :=
  { data := [9, 9, 1, 1, 1, 1, 1, 0], fmap := test_fmap,
    ro_version := [83, 46, 49], rw_version_a := [49], rw_version_b := [49],
    programmer := "host" }

/-- A candidate image: same RO bytes, RW bytes 2 (all RW sections differ
from img_current). -/
def img_cand : firmware_image :=
  { data := [9, 9, 2, 2, 2, 2, 2, 0], fmap := test_fmap,
    ro_version := [83, 46, 49], rw_version_a := [50], rw_version_b := [50],
    programmer := "host" }

/-- A candidate whose RW_SECTION_A (and VBLOCK_A) bytes equal img_current:
the SELF slot does not differ when slot A is active. -/
def img_cand_same_a : firmware_image :=
  { data := [9, 9, 1, 1, 2, 2, 1, 0], fmap := test_fmap,
    ro_version := [83, 46, 49], rw_version_a := [49], rw_version_b := [50],
    programmer := "host" }

/-- An environment where every external collaborator succeeds, keyblock
decoding yields data key version 1 and firmware version 1, and the
preservation transformers leave the candidate bytes unchanged. -/
def env_ok : updater_env :=
  { kb_sz := 1, pre_sz := 1,
    decode_kb := fun _ => { keyblock_size := 1, data_key_version := 1 },
    decode_pre := fun _ => { firmware_version := 1 },
    gbb_found := fun _ => true,
    rootkey := fun _ => some { bytes := [0] },
    verify_ok := fun _ _ => true,
    flash_ok := fun _ _ => true,
    cbfs_file_exists := fun _ _ _ => false,
    tmpfile_ok := true,
    set_try_next_ok := fun _ => true,
    set_try_count_ok := fun _ => true,
    preserve_gbb_fx := fun _ img => img,
    preserve_images_fx := fun _ img => img,
    load_system_ok := true,
    system_image := img_current,
    apply_quirk := fun _ => 0 }

/-- A base configuration: candidate img_cand over img_current, slot A,
vboot2, write protection enabled, no force, no quirks. -/
def cfg_base : updater_config :=
  { image := img_cand, image_current := img_current,
    ec_image := null_image, pd_image := null_image,
    mainfw_act := 0, tpm_fwver := 0, fw_vboot2 := 1,
    wp_hw := 1, wp_sw := 1,
    try_update := false, force_update := false, legacy_update := false,
    emulation := false, quirks := fun _ => 0 }

/-- Strategy C configuration (recovery mode with write protection). -/
def cfg_recovery : updater_config := cfg_base

/-- A try-RW configuration whose active slot is unknown. -/
def cfg_unknown_slot : updater_config :=
  { cfg_base with try_update := true, mainfw_act := -1 }

/-- A try-RW configuration, slot A active, candidate equal to the current
image on the SELF slot. -/
def cfg_try_same : updater_config :=
  { cfg_base with try_update := true, image := img_cand_same_a }

/-- A try-RW configuration, slot A active, candidate differing on A. -/
def cfg_try : updater_config :=
  { cfg_base with try_update := true }

/-- TPM versions exactly equal to the candidate versions (1, 1). -/
def cfg_tpm_eq : updater_config :=
  { cfg_base with tpm_fwver := 65537 }

/-- TPM firmware version one above the candidate firmware version. -/
def cfg_tpm_hi : updater_config :=
  { cfg_base with tpm_fwver := 65538 }

/-- Same rollback situation, with force_update set. -/
def cfg_tpm_hi_forced : updater_config :=
  { cfg_base with tpm_fwver := 65538, force_update := true }

/-- An environment whose cbfstool oracle reports the auto-update tag
exactly for the candidate image contents (the current image lacks it). -/
def env_legacy_bug : updater_env :=
  { env_ok with cbfs_file_exists := fun img _ _ => decide (img = img_cand) }

/-- Additionally, flash writes to RW_LEGACY fail. -/
def env_legacy_fail : updater_env :=
  { env_legacy_bug with
    flash_ok := fun _ s => decide (s ≠ some FMAP_RW_LEGACY) }

/- Helper lemmas shared by several claim proofs. -/

theorem get_many_no_getter_when_initialized (vals : List Int)
    (prop : system_property) (h : prop.initialized = true) :
    get_system_property_many vals prop =
      (vals.map (fun _ => prop.value), prop, 0) := by
  induction vals with
  | nil => simp [get_system_property_many]
  | cons v vs ih => simp [get_system_property_many, get_system_property, h, ih]

/-- C3: the write-protection predicate returns disabled exactly when WP_HW
is disabled or (WP_HW not disabled and) WP_SW is disabled, and enabled for
every other WP_SW value including errors; in particular (HW disabled, SW
enabled) gives disabled, (HW error, SW disabled) gives disabled and (HW
enabled, SW error) gives enabled. -/
theorem wp_predicate_correct (wp_hw wp_sw : Int) :
    is_write_protection_enabled wp_hw wp_sw =
      (if wp_hw = 0 then 0 else if wp_sw = 0 then 0 else 1) ∧
    is_write_protection_enabled 0 1 = 0 ∧
    is_write_protection_enabled (-1) 0 = 0 ∧
    is_write_protection_enabled 1 (-1) = 1 := by
  refine ⟨?_, by decide, by decide, by decide⟩
  by_cases h1 : wp_hw = 0 <;> by_cases h2 : wp_sw = 0 <;>
    simp [is_write_protection_enabled, WP_DISABLED, WP_ENABLED, h1, h2]

/-- C1: for a candidate whose VBLOCK_A decodes to versions (dkv, fv) and a
cached TPM value tpm_fwver, the check fails when tpm_fwver is negative,
and for a non-negative tpm_fwver it passes exactly when dkv is at least
the upper 16 bits and fv at least the lower 16 bits; the wrapper waives a
failing check when force_update is set and is transparent otherwise. -/
theorem tpm_rollback_check_correct
    (env : updater_env) (cfg : updater_config) (rw_image : firmware_image)
    (dkv fv : Nat)
    (h : get_key_versions env rw_image FMAP_RW_VBLOCK_A = some (dkv, fv)) :
    (cfg.tpm_fwver < 0 → do_check_compatible_tpm_keys env cfg rw_image = -1) ∧
    (0 ≤ cfg.tpm_fwver →
      do_check_compatible_tpm_keys env cfg rw_image =
        (if cfg.tpm_fwver.toNat >>> 16 ≤ dkv ∧ cfg.tpm_fwver.toNat &&& 65535 ≤ fv
         then 0 else -1)) ∧
    (cfg.force_update = true → check_compatible_tpm_keys env cfg rw_image = 0) ∧
    (cfg.force_update = false →
      check_compatible_tpm_keys env cfg rw_image =
        do_check_compatible_tpm_keys env cfg rw_image) := by
  refine ⟨?_, ?_, ?_, ?_⟩
  · intro hneg
    simp [do_check_compatible_tpm_keys, h, hneg]
  · intro hpos
    have hns : ¬ cfg.tpm_fwver < 0 := not_lt.mpr hpos
    by_cases h1 : cfg.tpm_fwver.toNat >>> 16 ≤ dkv <;>
      by_cases h2 : cfg.tpm_fwver.toNat &&& 65535 ≤ fv
    all_goals
      simp [do_check_compatible_tpm_keys, h, hns, h1, h2, Nat.not_le, Nat.not_lt]
    all_goals omega
  · intro hf
    by_cases hr : do_check_compatible_tpm_keys env cfg rw_image = 0 <;>
      simp [check_compatible_tpm_keys, hr, hf]
  · intro hf
    by_cases hr : do_check_compatible_tpm_keys env cfg rw_image = 0 <;>
      simp [check_compatible_tpm_keys, hr, hf]

/-- Witness for C1: a concrete candidate decoding to versions (1, 1); the
check passes at exact equality with the TPM value 0x00010001, fails when
the TPM firmware version is one higher (0x00010002), and the failing check
is waived by force_update. -/
theorem tpm_rollback_check_witness :
    get_key_versions env_ok img_cand FMAP_RW_VBLOCK_A = some (1, 1) ∧
    do_check_compatible_tpm_keys env_ok cfg_tpm_eq img_cand = 0 ∧
    do_check_compatible_tpm_keys env_ok cfg_tpm_hi img_cand = -1 ∧
    check_compatible_tpm_keys env_ok cfg_tpm_hi_forced img_cand = 0 := by
  have h1 := (tpm_rollback_check_correct env_ok cfg_tpm_eq img_cand 1 1
    rfl).2.1 (by decide)
  have h2 := (tpm_rollback_check_correct env_ok cfg_tpm_hi img_cand 1 1
    rfl).2.1 (by decide)
  have h3 := (tpm_rollback_check_correct env_ok cfg_tpm_hi_forced img_cand 1 1
    rfl).2.2.1 rfl
  rw [if_pos (by decide)] at h1
  rw [if_neg (by decide)] at h2
  exact ⟨rfl, h1, h2, h3⟩

/-- C9: a cache entry, once initialized (by a first get or by an
override), answers every later get with the stored value, without invoking
the underlying getter and without observing later changes of the
underlying value; over any call sequence the getter runs at most once. -/
theorem property_cache_write_once
    (prop : system_property) (v v' w : Int) (vals : List Int) :
    (prop.initialized = true →
      get_system_property v prop = (prop.value, prop, false)) ∧
    (get_system_property v (override_system_property w prop) =
      (w, override_system_property w prop, false)) ∧
    ((get_system_property v prop).2.1.initialized = true) ∧
    (get_system_property v' (get_system_property v prop).2.1 =
      ((get_system_property v prop).1, (get_system_property v prop).2.1, false)) ∧
    ((get_system_property_many vals prop).2.2 ≤ 1) := by
  refine ⟨?_, ?_, ?_, ?_, ?_⟩
  · intro h; simp [get_system_property, h]
  · simp [get_system_property, override_system_property]
  · cases hp : prop.initialized <;> simp [get_system_property, hp]
  · cases hp : prop.initialized <;> simp [get_system_property, hp]
  · cases hp : prop.initialized
    · cases vals with
      | nil => simp [get_system_property_many]
      | cons x xs =>
          simp [get_system_property_many, get_system_property, hp,
            get_many_no_getter_when_initialized xs
              { value := x, initialized := true } rfl]
    · simp [get_many_no_getter_when_initialized vals prop hp]

/-- Witness for C9: concrete cache entries; an initialized entry answers
from the cache, an overridden entry answers the override, and a three-call
sequence on a fresh entry invokes the getter at most once. -/
theorem property_cache_witness :
    get_system_property 9 { value := 5, initialized := true } =
      (5, { value := 5, initialized := true }, false) ∧
    get_system_property 9 (override_system_property 4
      { value := 0, initialized := false }) =
      (4, override_system_property 4 { value := 0, initialized := false }, false) ∧
    (get_system_property_many [1, 2, 3]
      { value := 0, initialized := false }).2.2 ≤ 1 := by
  have h := property_cache_write_once
    { value := 5, initialized := true } 9 0 4 [1, 2, 3]
  have h2 := property_cache_write_once
    { value := 0, initialized := false } 9 0 4 [1, 2, 3]
  exact ⟨h.1 rfl, h2.2.1, h2.2.2.2.2⟩

/-- C10: when the VBLOCK_A section is absent or smaller than
sizeof(vb2_keyblock) + sizeof(vb2_fw_preamble), get_keyblock returns NULL,
and both the version extraction feeding the TPM check and the root key
check report failure; conversely a non-NULL keyblock guarantees the
section was found with at least the minimum size. -/
theorem vblock_min_size_guard (env : updater_env) (image : firmware_image) :
    (((find_firmware_section image FMAP_RW_VBLOCK_A).data = none ∨
      (find_firmware_section image FMAP_RW_VBLOCK_A).size <
        env.kb_sz + env.pre_sz) →
      get_keyblock env image FMAP_RW_VBLOCK_A = none ∧
      get_key_versions env image FMAP_RW_VBLOCK_A = none ∧
      (∀ ro_image : firmware_image,
        check_compatible_root_key env ro_image image = -1) ∧
      (∀ cfg : updater_config,
        do_check_compatible_tpm_keys env cfg image = -1)) ∧
    (∀ kb_bytes : List Nat,
      get_keyblock env image FMAP_RW_VBLOCK_A = some kb_bytes →
      env.kb_sz + env.pre_sz ≤
        (find_firmware_section image FMAP_RW_VBLOCK_A).size ∧
      (find_firmware_section image FMAP_RW_VBLOCK_A).data ≠ none) := by
  constructor
  · intro h
    have hkb : get_keyblock env image FMAP_RW_VBLOCK_A = none := by
      rcases h with h | h
      · unfold get_keyblock
        by_cases hs : (find_firmware_section image FMAP_RW_VBLOCK_A).size <
            env.kb_sz + env.pre_sz
        · simp [hs]
        · simp [hs, h]
      · unfold get_keyblock
        simp [h]
    refine ⟨hkb, ?_, ?_, ?_⟩
    · simp [get_key_versions, hkb]
    · intro ro_image
      unfold check_compatible_root_key
      by_cases hg : env.gbb_found ro_image = false
      · simp [hg]
      · cases hr : env.rootkey ro_image <;> simp [hg, hr, hkb]
    · intro cfg
      simp [do_check_compatible_tpm_keys, get_key_versions, hkb]
  · intro kb_bytes hkb
    unfold get_keyblock at hkb
    by_cases hs : (find_firmware_section image FMAP_RW_VBLOCK_A).size <
        env.kb_sz + env.pre_sz
    · simp [hs] at hkb
    · refine ⟨not_lt.mp hs, ?_⟩
      intro hd
      simp [hs, hd] at hkb

/-- Witness for C10: an image without VBLOCK_A; all interface functions
report failure. -/
theorem vblock_min_size_guard_witness :
    get_keyblock env_ok null_image FMAP_RW_VBLOCK_A = none ∧
    get_key_versions env_ok null_image FMAP_RW_VBLOCK_A = none ∧
    check_compatible_root_key env_ok img_current null_image = -1 ∧
    do_check_compatible_tpm_keys env_ok cfg_base null_image = -1 := by
  have h := (vblock_min_size_guard env_ok null_image).1 (Or.inl rfl)
  exact ⟨h.1, h.2.1, h.2.2.1 img_current, h.2.2.2 cfg_base⟩

/-- C2: the RW target selector is total on its inputs: vboot1 always maps
UPDATE to RW_SECTION_B and SELF to RW_SECTION_A regardless of the slot;
vboot2 maps slot A to UPDATE=B/SELF=A and slot B to UPDATE=A/SELF=B; an
unknown slot under vboot2 yields no target and makes the try-RW updater
fail with UPDATE_ERR_TARGET once the preceding checks pass; and for every
generation and known slot the UPDATE target differs from the SELF target. -/
theorem rw_target_selector_correct
    (slot v : Int) (env : updater_env) (cfg : updater_config)
    (image_from image_to0 : firmware_image) (wp_enabled : Int) :
    (decide_rw_target slot target_type.TARGET_UPDATE 0 = some FMAP_RW_SECTION_B ∧
     decide_rw_target slot target_type.TARGET_SELF 0 = some FMAP_RW_SECTION_A) ∧
    (v ≠ 0 →
      decide_rw_target 0 target_type.TARGET_UPDATE v = some FMAP_RW_SECTION_B ∧
      decide_rw_target 0 target_type.TARGET_SELF v = some FMAP_RW_SECTION_A ∧
      decide_rw_target 1 target_type.TARGET_UPDATE v = some FMAP_RW_SECTION_A ∧
      decide_rw_target 1 target_type.TARGET_SELF v = some FMAP_RW_SECTION_B) ∧
    (v ≠ 0 → slot ≠ 0 → slot ≠ 1 →
      decide_rw_target slot target_type.TARGET_UPDATE v = none ∧
      decide_rw_target slot target_type.TARGET_SELF v = none) ∧
    ((slot = 0 ∨ slot = 1) →
      decide_rw_target slot target_type.TARGET_UPDATE v ≠
        decide_rw_target slot target_type.TARGET_SELF v) ∧
    (cfg.fw_vboot2 ≠ 0 → cfg.mainfw_act ≠ 0 → cfg.mainfw_act ≠ 1 →
      ¬ (wp_enabled = 0 ∧
         section_needs_update image_from
           (env.preserve_gbb_fx image_from image_to0)
           (some FMAP_RO_SECTION) ≠ 0) →
      check_compatible_root_key env image_from
        (env.preserve_gbb_fx image_from image_to0) = 0 →
      check_compatible_tpm_keys env cfg
        (env.preserve_gbb_fx image_from image_to0) = 0 →
      update_try_rw_firmware env cfg image_from image_to0 wp_enabled =
        (updater_error_codes.UPDATE_ERR_TARGET, [])) := by
  refine ⟨⟨rfl, rfl⟩, ?_, ?_, ?_, ?_⟩
  · intro hv
    simp [decide_rw_target, hv]
  · intro hv h0 h1
    have h : ∀ t, decide_rw_target slot t v = none := by
      intro t
      unfold decide_rw_target
      rw [if_neg hv, if_neg h0, if_neg h1]
    exact ⟨h _, h _⟩
  · intro hs
    rcases hs with hs | hs <;> subst hs <;>
      by_cases hv : v = 0 <;> simp [decide_rw_target, hv] <;> decide
  · intro hv h0 h1 hro hroot htpm
    have hsel : decide_rw_target cfg.mainfw_act target_type.TARGET_SELF
        cfg.fw_vboot2 = none := by
      unfold decide_rw_target
      rw [if_neg hv, if_neg h0, if_neg h1]
    simp only [update_try_rw_firmware]
    rw [if_neg hro, if_neg (by simp [hroot]), if_neg (by simp [htpm]), hsel]

/-- Witness for C2: with an unknown active slot under vboot2 and all
preceding checks passing, try-RW fails with UPDATE_ERR_TARGET; and at
slot A under vboot2 the two targets differ. -/
theorem rw_target_selector_witness :
    update_try_rw_firmware env_ok cfg_unknown_slot img_current img_cand 1 =
      (updater_error_codes.UPDATE_ERR_TARGET, []) ∧
    decide_rw_target 0 target_type.TARGET_UPDATE 1 ≠
      decide_rw_target 0 target_type.TARGET_SELF 1 := by
  constructor
  · exact (rw_target_selector_correct (-1) 1 env_ok cfg_unknown_slot
      img_current img_cand 1).2.2.2.2
      (by decide) (by decide) (by decide)
      (by intro hx; exact absurd hx.1 (by decide)) rfl rfl
  · exact (rw_target_selector_correct 0 1 env_ok cfg_unknown_slot
      img_current img_cand 1).2.2.2.1 (Or.inl rfl)

/-- C5 (amended): preserve_gbb fails exactly when either GBB is missing or
strlen(source HWID) + 1 exceeds the destination capacity (an exact fit
succeeds); when both GBBs are present the flags are copied before the size
check, so on the HWID-too-large failure the destination GBB flags have
already been replaced by the source flags while the HWID area is left
unchanged; on success the flags are copied and the HWID area is the source
HWID followed by zero fill. -/
theorem preserve_gbb_characterization
    (image_from image_to : gbb_image) (gf gt : vb2_gbb_header) :
    (image_from.gbb = none ∨ image_to.gbb = none →
      preserve_gbb image_from image_to = (-1, image_to)) ∧
    (image_from.gbb = some gf → image_to.gbb = some gt →
      (strlen gf.hwid_area + 1 > gt.hwid_size →
        preserve_gbb image_from image_to =
          (-1, { gbb := some { gt with flags := gf.flags } })) ∧
      (strlen gf.hwid_area + 1 ≤ gt.hwid_size →
        preserve_gbb image_from image_to =
          (0, { gbb := some {
                  flags := gf.flags,
                  hwid_size := gt.hwid_size,
                  hwid_area := gf.hwid_area.take (strlen gf.hwid_area) ++
                    List.replicate (gt.hwid_size - strlen gf.hwid_area) 0 } }))) := by
  constructor
  · intro h
    rcases h with h | h
    · cases ht : image_to.gbb <;> simp [preserve_gbb, h, ht]
    · cases hf : image_from.gbb <;> simp [preserve_gbb, h, hf]
  · intro hf ht
    constructor
    · intro hlen
      have hge : strlen gf.hwid_area ≥ gt.hwid_size := by omega
      simp [preserve_gbb, hf, ht, hge]
    · intro hlen
      have hgt : ¬ strlen gf.hwid_area ≥ gt.hwid_size := by omega
      simp [preserve_gbb, hf, ht, hgt]

/-- Counterexample for C5 as stated: a source HWID of length 2 against a
destination capacity of 2 makes preserve_gbb fail, yet the destination is
mutated: its GBB flags have been overwritten with the source flags. -/
theorem preserve_gbb_mutates_on_failure :
    preserve_gbb
        { gbb := some { flags := 7, hwid_size := 2, hwid_area := [65, 66, 0] } }
        { gbb := some { flags := 0, hwid_size := 2, hwid_area := [0, 0] } } =
      (-1, { gbb := some { flags := 7, hwid_size := 2, hwid_area := [0, 0] } }) ∧
    ({ gbb := some { flags := 7, hwid_size := 2, hwid_area := [0, 0] } } : gbb_image) ≠
      { gbb := some { flags := 0, hwid_size := 2, hwid_area := [0, 0] } } :=
  ⟨rfl, by decide⟩

/-- Witness for C5 (amended): boundary cases at a destination capacity of
3: a source HWID of length 2 (exact fit with its NUL) succeeds and yields
the zero-filled copy; a source HWID of length 3 fails with only the flags
mutated. -/
theorem preserve_gbb_boundary_witness :
    preserve_gbb
        { gbb := some { flags := 5, hwid_size := 4, hwid_area := [65, 66, 0, 9] } }
        { gbb := some { flags := 1, hwid_size := 3, hwid_area := [8, 8, 8] } } =
      (0, { gbb := some { flags := 5, hwid_size := 3, hwid_area := [65, 66, 0] } }) ∧
    preserve_gbb
        { gbb := some { flags := 5, hwid_size := 4, hwid_area := [65, 66, 67, 0] } }
        { gbb := some { flags := 1, hwid_size := 3, hwid_area := [8, 8, 8] } } =
      (-1, { gbb := some { flags := 5, hwid_size := 3, hwid_area := [8, 8, 8] } }) := by
  constructor
  · have h := ((preserve_gbb_characterization
      { gbb := some { flags := 5, hwid_size := 4, hwid_area := [65, 66, 0, 9] } }
      { gbb := some { flags := 1, hwid_size := 3, hwid_area := [8, 8, 8] } }
      { flags := 5, hwid_size := 4, hwid_area := [65, 66, 0, 9] }
      { flags := 1, hwid_size := 3, hwid_area := [8, 8, 8] }).2 rfl rfl).2
      (by decide)
    simpa using h
  · have h := ((preserve_gbb_characterization
      { gbb := some { flags := 5, hwid_size := 4, hwid_area := [65, 66, 67, 0] } }
      { gbb := some { flags := 1, hwid_size := 3, hwid_area := [8, 8, 8] } }
      { flags := 5, hwid_size := 4, hwid_area := [65, 66, 67, 0] }
      { flags := 1, hwid_size := 3, hwid_area := [8, 8, 8] }).2 rfl rfl).1
      (by decide)
    simpa using h

/-- C6 (code evaluation at the failing input): the source computes both
has_from and has_to from the temp copy of the candidate image, so with a
current image lacking the cros_allow_auto_update tag and a candidate
carrying it, legacy_needs_update still reports an update and the legacy
write is issued; additionally a failing legacy write leaves the try-RW
result at UPDATE_ERR_DONE. -/
theorem legacy_tag_checked_on_candidate_only :
    legacy_needs_update env_legacy_bug img_current img_cand = true ∧
    env_legacy_bug.cbfs_file_exists img_current FMAP_RW_LEGACY
      "cros_allow_auto_update" = false ∧
    section_needs_update img_current img_cand (some FMAP_RW_LEGACY) ≠ 0 ∧
    update_try_rw_firmware env_legacy_fail cfg_try img_current img_cand 1 =
      (updater_error_codes.UPDATE_ERR_DONE,
       [("host", some FMAP_RW_SECTION_B), ("host", some FMAP_RW_LEGACY)]) ∧
    env_legacy_fail.flash_ok "host" (some FMAP_RW_LEGACY) = false :=
  ⟨rfl, rfl, by decide, rfl, rfl⟩

/-- C4: in Strategy C, once the root key and TPM checks pass, writes are
issued in the exact order RW_SECTION_A, RW_SECTION_B, RW_SHARED, then
RW_LEGACY only when that section is present in the candidate (silently
skipped otherwise); the first failing write aborts the sequence with
UPDATE_ERR_WRITE_FIRMWARE and no later write is issued. -/
theorem rw_only_write_order
    (env : updater_env) (cfg : updater_config)
    (image_from image_to : firmware_image)
    (hroot : check_compatible_root_key env image_from image_to = 0)
    (htpm : check_compatible_tpm_keys env cfg image_to = 0)
    (hdata : image_to.data ≠ []) :
    (env.flash_ok image_to.programmer (some FMAP_RW_SECTION_A) = false →
      update_rw_firmrware env cfg image_from image_to =
        (updater_error_codes.UPDATE_ERR_WRITE_FIRMWARE,
         [(image_to.programmer, some FMAP_RW_SECTION_A)])) ∧
    (env.flash_ok image_to.programmer (some FMAP_RW_SECTION_A) = true →
     env.flash_ok image_to.programmer (some FMAP_RW_SECTION_B) = false →
      update_rw_firmrware env cfg image_from image_to =
        (updater_error_codes.UPDATE_ERR_WRITE_FIRMWARE,
         [(image_to.programmer, some FMAP_RW_SECTION_A),
          (image_to.programmer, some FMAP_RW_SECTION_B)])) ∧
    (env.flash_ok image_to.programmer (some FMAP_RW_SECTION_A) = true →
     env.flash_ok image_to.programmer (some FMAP_RW_SECTION_B) = true →
     env.flash_ok image_to.programmer (some FMAP_RW_SHARED) = false →
      update_rw_firmrware env cfg image_from image_to =
        (updater_error_codes.UPDATE_ERR_WRITE_FIRMWARE,
         [(image_to.programmer, some FMAP_RW_SECTION_A),
          (image_to.programmer, some FMAP_RW_SECTION_B),
          (image_to.programmer, some FMAP_RW_SHARED)])) ∧
    (env.flash_ok image_to.programmer (some FMAP_RW_SECTION_A) = true →
     env.flash_ok image_to.programmer (some FMAP_RW_SECTION_B) = true →
     env.flash_ok image_to.programmer (some FMAP_RW_SHARED) = true →
     firmware_section_exists image_to FMAP_RW_LEGACY = false →
      update_rw_firmrware env cfg image_from image_to =
        (updater_error_codes.UPDATE_ERR_DONE,
         [(image_to.programmer, some FMAP_RW_SECTION_A),
          (image_to.programmer, some FMAP_RW_SECTION_B),
          (image_to.programmer, some FMAP_RW_SHARED)])) ∧
    (env.flash_ok image_to.programmer (some FMAP_RW_SECTION_A) = true →
     env.flash_ok image_to.programmer (some FMAP_RW_SECTION_B) = true →
     env.flash_ok image_to.programmer (some FMAP_RW_SHARED) = true →
     firmware_section_exists image_to FMAP_RW_LEGACY = true →
     env.flash_ok image_to.programmer (some FMAP_RW_LEGACY) = false →
      update_rw_firmrware env cfg image_from image_to =
        (updater_error_codes.UPDATE_ERR_WRITE_FIRMWARE,
         [(image_to.programmer, some FMAP_RW_SECTION_A),
          (image_to.programmer, some FMAP_RW_SECTION_B),
          (image_to.programmer, some FMAP_RW_SHARED),
          (image_to.programmer, some FMAP_RW_LEGACY)])) ∧
    (env.flash_ok image_to.programmer (some FMAP_RW_SECTION_A) = true →
     env.flash_ok image_to.programmer (some FMAP_RW_SECTION_B) = true →
     env.flash_ok image_to.programmer (some FMAP_RW_SHARED) = true →
     firmware_section_exists image_to FMAP_RW_LEGACY = true →
     env.flash_ok image_to.programmer (some FMAP_RW_LEGACY) = true →
      update_rw_firmrware env cfg image_from image_to =
        (updater_error_codes.UPDATE_ERR_DONE,
         [(image_to.programmer, some FMAP_RW_SECTION_A),
          (image_to.programmer, some FMAP_RW_SECTION_B),
          (image_to.programmer, some FMAP_RW_SHARED),
          (image_to.programmer, some FMAP_RW_LEGACY)])) := by
  refine ⟨?_, ?_, ?_, ?_, ?_, ?_⟩
  · intro ha
    simp [update_rw_firmrware, write_firmware, hroot, htpm, ha]
  · intro ha hb
    simp [update_rw_firmrware, write_firmware, hroot, htpm, ha, hb]
  · intro ha hb hs
    simp [update_rw_firmrware, write_firmware, hroot, htpm, ha, hb, hs]
  · intro ha hb hs hl
    simp [update_rw_firmrware, write_firmware, write_optional_firmware,
      hroot, htpm, ha, hb, hs, hl, hdata]
  · intro ha hb hs hl hf
    simp [update_rw_firmrware, write_firmware, write_optional_firmware,
      hroot, htpm, ha, hb, hs, hl, hf, hdata]
  · intro ha hb hs hl hf
    simp [update_rw_firmrware, write_firmware, write_optional_firmware,
      hroot, htpm, ha, hb, hs, hl, hf, hdata]

/-- Witness for C4: with every flashrom write succeeding, the RW-only run
on the concrete images issues exactly the four writes in order and returns
UPDATE_ERR_DONE. -/
theorem rw_only_write_order_witness :
    update_rw_firmrware env_ok cfg_recovery img_current img_cand =
      (updater_error_codes.UPDATE_ERR_DONE,
       [("host", some FMAP_RW_SECTION_A), ("host", some FMAP_RW_SECTION_B),
        ("host", some FMAP_RW_SHARED), ("host", some FMAP_RW_LEGACY)]) := by
  have h := (rw_only_write_order env_ok cfg_recovery img_current img_cand
    rfl rfl (by decide)).2.2.2.2.2 rfl rfl rfl rfl rfl
  exact h

theorem rw_firmrware_first_write
    (env : updater_env) (cfg : updater_config)
    (image_from image_to : firmware_image)
    (hroot : check_compatible_root_key env image_from image_to = 0)
    (htpm : check_compatible_tpm_keys env cfg image_to = 0) :
    (update_rw_firmrware env cfg image_from image_to).2.take 1 =
      [(image_to.programmer, some FMAP_RW_SECTION_A)] := by
  by_cases ha : env.flash_ok image_to.programmer (some FMAP_RW_SECTION_A) <;>
  by_cases hb : env.flash_ok image_to.programmer (some FMAP_RW_SECTION_B) <;>
  by_cases hs : env.flash_ok image_to.programmer (some FMAP_RW_SHARED) <;>
  by_cases hl : firmware_section_exists image_to FMAP_RW_LEGACY <;>
  by_cases hf : env.flash_ok image_to.programmer (some FMAP_RW_LEGACY) <;>
  by_cases hdata : image_to.data = [] <;>
  simp [update_rw_firmrware, write_firmware, write_optional_firmware,
    hroot, htpm, ha, hb, hs, hl, hf, hdata]

theorem try_rw_no_diff_no_write
    (env : updater_env) (cfg : updater_config)
    (image_from image_to0 : firmware_image) (wp_enabled : Int)
    (hwp : wp_enabled ≠ 0)
    (hroot : check_compatible_root_key env image_from
      (env.preserve_gbb_fx image_from image_to0) = 0)
    (htpm : check_compatible_tpm_keys env cfg
      (env.preserve_gbb_fx image_from image_to0) = 0)
    (hforce : cfg.force_update = false)
    (self_name : String)
    (hsel : decide_rw_target cfg.mainfw_act target_type.TARGET_SELF
      cfg.fw_vboot2 = some self_name)
    (hex : firmware_section_exists (env.preserve_gbb_fx image_from image_to0)
      self_name = true)
    (hsame : section_needs_update image_from
      (env.preserve_gbb_fx image_from image_to0) (some self_name) = 0)
    (hleg : legacy_needs_update env image_from
      (env.preserve_gbb_fx image_from image_to0) = false) :
    update_try_rw_firmware env cfg image_from image_to0 wp_enabled =
      (updater_error_codes.UPDATE_ERR_DONE, []) := by
  simp only [update_try_rw_firmware]
  rw [if_neg (fun h => hwp h.1), if_neg (by simp [hroot]),
    if_neg (by simp [htpm]), hsel]
  simp [hex, hforce, hsame, hleg]

theorem update_firmware_strategy_select
    (env : updater_env) (cfg : updater_config)
    (hq : ∀ q, cfg.quirks q = 0)
    (hd : cfg.image.data ≠ [])
    (hcd : cfg.image_current.data ≠ [])
    (hplat : check_compatible_platform cfg.image_current cfg.image = 0)
    (hleg : cfg.legacy_update = false) :
    update_firmware env cfg =
      (if cfg.try_update then
        (let r := update_try_rw_firmware env cfg cfg.image_current cfg.image
            (is_write_protection_enabled cfg.wp_hw cfg.wp_sw)
         if r.1 ≠ updater_error_codes.UPDATE_ERR_NEED_RO_UPDATE then r
         else
           let image_to1 := env.preserve_gbb_fx cfg.image_current cfg.image
           if is_write_protection_enabled cfg.wp_hw cfg.wp_sw ≠ 0 then
             update_rw_firmrware env cfg cfg.image_current image_to1
           else update_whole_firmware env cfg cfg.image_current image_to1)
      else if is_write_protection_enabled cfg.wp_hw cfg.wp_sw ≠ 0 then
        update_rw_firmrware env cfg cfg.image_current cfg.image
      else update_whole_firmware env cfg cfg.image_current cfg.image) := by
  have hq0 : ∀ q, try_apply_quirk env cfg q = 0 := fun q => by
    simp [try_apply_quirk, hq q]
  simp [update_firmware, hd, hcd, hplat, hleg, hq0]

/-- C7 (amended): update_firmware is a pure function of its inputs, so a
second run with identical inputs and no external state change returns
exactly the first result (DONE again when the first run returned DONE) and
issues exactly the same writes; the second run is not write-free in
general: in Strategy B with force_update unset it issues no write exactly
in runs where the SELF slot does not differ and no legacy update is due,
whereas in Strategy C the write to RW_SECTION_A (followed by B and SHARED)
is issued on every run. -/
theorem update_firmware_rerun (env : updater_env) (cfg : updater_config) :
    ((update_firmware_twice env cfg).2 = (update_firmware_twice env cfg).1) ∧
    ((update_firmware_twice env cfg).1.1 = updater_error_codes.UPDATE_ERR_DONE →
      (update_firmware_twice env cfg).2.1 = updater_error_codes.UPDATE_ERR_DONE) ∧
    (cfg.try_update = true → cfg.legacy_update = false →
     cfg.force_update = false →
     (∀ q, cfg.quirks q = 0) → cfg.image.data ≠ [] →
     cfg.image_current.data ≠ [] →
     check_compatible_platform cfg.image_current cfg.image = 0 →
     is_write_protection_enabled cfg.wp_hw cfg.wp_sw ≠ 0 →
     check_compatible_root_key env cfg.image_current
       (env.preserve_gbb_fx cfg.image_current cfg.image) = 0 →
     check_compatible_tpm_keys env cfg
       (env.preserve_gbb_fx cfg.image_current cfg.image) = 0 →
     ∀ self_name,
       decide_rw_target cfg.mainfw_act target_type.TARGET_SELF cfg.fw_vboot2 =
         some self_name →
       firmware_section_exists (env.preserve_gbb_fx cfg.image_current cfg.image)
         self_name = true →
       section_needs_update cfg.image_current
         (env.preserve_gbb_fx cfg.image_current cfg.image) (some self_name) = 0 →
       legacy_needs_update env cfg.image_current
         (env.preserve_gbb_fx cfg.image_current cfg.image) = false →
       update_firmware env cfg = (updater_error_codes.UPDATE_ERR_DONE, [])) ∧
    (cfg.try_update = false → cfg.legacy_update = false →
     (∀ q, cfg.quirks q = 0) → cfg.image.data ≠ [] →
     cfg.image_current.data ≠ [] →
     check_compatible_platform cfg.image_current cfg.image = 0 →
     is_write_protection_enabled cfg.wp_hw cfg.wp_sw ≠ 0 →
     check_compatible_root_key env cfg.image_current cfg.image = 0 →
     check_compatible_tpm_keys env cfg cfg.image = 0 →
     (update_firmware env cfg).2.take 1 =
       [(cfg.image.programmer, some FMAP_RW_SECTION_A)]) := by
  refine ⟨rfl, fun h => h, ?_, ?_⟩
  · intro htry hleg hforce hq hd hcd hplat hwp hroot htpm self_name hsel hex
      hsame hlegn
    rw [update_firmware_strategy_select env cfg hq hd hcd hplat hleg, htry]
    have h1 := try_rw_no_diff_no_write env cfg cfg.image_current cfg.image
      (is_write_protection_enabled cfg.wp_hw cfg.wp_sw) hwp hroot htpm hforce
      self_name hsel hex hsame hlegn
    simp [h1]
  · intro htry hleg hq hd hcd hplat hwp hroot htpm
    rw [update_firmware_strategy_select env cfg hq hd hcd hplat hleg, htry]
    simp only [Bool.false_eq_true, if_false]
    rw [if_pos hwp]
    exact rw_firmrware_first_write env cfg cfg.image_current cfg.image hroot htpm

/-- Witness for C7 (amended): a try-RW run whose candidate agrees with the
current image on the SELF slot issues no write and returns DONE. -/
theorem update_firmware_rerun_witness :
    update_firmware env_ok cfg_try_same =
      (updater_error_codes.UPDATE_ERR_DONE, []) :=
  (update_firmware_rerun env_ok cfg_try_same).2.2.1 rfl rfl rfl (fun _ => rfl)
    (by decide) (by decide) rfl (by decide) rfl rfl FMAP_RW_SECTION_A rfl rfl
    rfl rfl

/-- Counterexample for C7 as stated: a Strategy C configuration with
force_update unset on which the first run returns DONE; the second run
with identical inputs returns DONE again but still issues the three RW
section writes (and the optional legacy write), not zero writes. -/
theorem second_run_still_writes :
    (update_firmware_twice env_ok cfg_recovery).2 =
      (updater_error_codes.UPDATE_ERR_DONE,
       [("host", some FMAP_RW_SECTION_A), ("host", some FMAP_RW_SECTION_B),
        ("host", some FMAP_RW_SHARED), ("host", some FMAP_RW_LEGACY)]) ∧
    cfg_recovery.force_update = false ∧
    (update_firmware_twice env_ok cfg_recovery).2.2 ≠ ([] : write_trace) :=
  ⟨rfl, rfl, by decide⟩

theorem write_slice_length (dst src : List Nat) (off : Nat) :
    (write_slice dst off src).length = dst.length := by
  simp [write_slice]

theorem write_slice_getD (dst src : List Nat) (off i : Nat)
    (h : i < dst.length) :
    (write_slice dst off src).getD i 0 =
      if off ≤ i ∧ i < off + src.length then src.getD (i - off) 0
      else dst.getD i 0 := by
  have h2 : i < ((List.range dst.length).map (fun i =>
      if off ≤ i ∧ i < off + src.length then src.getD (i - off) 0
      else dst.getD i 0)).length := by simpa using h
  rw [write_slice, List.getD_eq_getElem?_getD, List.getElem?_eq_getElem h2]
  simp

theorem write_slice_getD_oob (dst src : List Nat) (off j : Nat)
    (h : dst.length ≤ j) :
    (write_slice dst off src).getD j 0 = dst.getD j 0 := by
  rw [List.getD_eq_getElem?_getD, List.getD_eq_getElem?_getD,
    List.getElem?_eq_none (by simpa [write_slice] using h),
    List.getElem?_eq_none h]

theorem take_drop_getD (l : List Nat) (a m i : Nat) (him : i < m)
    (hb : a + i < l.length) :
    ((l.drop a).take m).getD i 0 = l.getD (a + i) 0 := by
  have hlen : i < ((l.drop a).take m).length := by
    simp only [List.length_take, List.length_drop]
    omega
  rw [List.getD_eq_getElem?_getD, List.getElem?_eq_getElem hlen,
    List.getD_eq_getElem?_getD, List.getElem?_eq_getElem hb]
  simp [List.getElem_take, List.getElem_drop]

/-- C8: when both images contain section n (with in-bounds handles, the
FMAP invariant), preserve_firmware_section succeeds and afterwards the
first min(from.size, to.size) bytes of the destination section equal the
corresponding source bytes while every other byte of the destination image
is unchanged (in particular the tail of a larger destination section and
everything outside the section); it fails exactly when either image lacks
the section, and then the destination is unchanged. -/
theorem preserve_section_copy_and_frame
    (image_from image_to : firmware_image) (n : String) :
    (∀ from_off fs to_off ts,
      find_firmware_section image_from n = { data := some from_off, size := fs } →
      find_firmware_section image_to n = { data := some to_off, size := ts } →
      from_off + fs ≤ image_from.data.length →
      to_off + ts ≤ image_to.data.length →
      (preserve_firmware_section image_from image_to n).1 = 0 ∧
      (preserve_firmware_section image_from image_to n).2.fmap = image_to.fmap ∧
      (preserve_firmware_section image_from image_to n).2.data.length =
        image_to.data.length ∧
      (∀ i, i < min fs ts →
        (preserve_firmware_section image_from image_to n).2.data.getD
            (to_off + i) 0 =
          image_from.data.getD (from_off + i) 0) ∧
      (∀ j, j < to_off ∨ to_off + min fs ts ≤ j →
        (preserve_firmware_section image_from image_to n).2.data.getD j 0 =
          image_to.data.getD j 0)) ∧
    (((find_firmware_section image_from n).data = none ∨
      (find_firmware_section image_to n).data = none) →
      preserve_firmware_section image_from image_to n = (-1, image_to)) := by
  constructor
  · intro from_off fs to_off ts hfrom hto hfb htb
    have hp : preserve_firmware_section image_from image_to n =
        (0, { image_to with
              data := write_slice image_to.data to_off
                ((image_from.data.drop from_off).take (min fs ts)) }) := by
      simp [preserve_firmware_section, hfrom, hto]
    have hsrc : ((image_from.data.drop from_off).take (min fs ts)).length =
        min fs ts := by
      simp only [List.length_take, List.length_drop]
      omega
    refine ⟨by rw [hp], by rw [hp], ?_, ?_, ?_⟩
    · rw [hp]
      exact write_slice_length _ _ _
    · intro i hi
      rw [hp]
      have hin : to_off + i < image_to.data.length := by omega
      rw [write_slice_getD _ _ _ _ hin, if_pos (by rw [hsrc]; omega)]
      have : to_off + i - to_off = i := by omega
      rw [this]
      exact take_drop_getD image_from.data from_off (min fs ts) i hi (by omega)
    · intro j hj
      rw [hp]
      by_cases hin : j < image_to.data.length
      · rw [write_slice_getD _ _ _ _ hin, if_neg (by rw [hsrc]; omega)]
      · exact write_slice_getD_oob _ _ _ _ (by omega)
  · intro h
    rcases h with h | h
    · cases h2 : (find_firmware_section image_to n).data <;>
        simp [preserve_firmware_section, h, h2]
    · cases h2 : (find_firmware_section image_from n).data <;>
        simp [preserve_firmware_section, h, h2]

/-- Witness for C8: preserving RW_SHARED between the concrete images
succeeds, copies the single byte of the section and leaves a byte outside
the section untouched. -/
theorem preserve_section_witness :
    (preserve_firmware_section img_current img_cand FMAP_RW_SHARED).1 = 0 ∧
    (preserve_firmware_section img_current img_cand FMAP_RW_SHARED).2.data.getD
        (5 + 0) 0 = img_current.data.getD (5 + 0) 0 ∧
    (preserve_firmware_section img_current img_cand FMAP_RW_SHARED).2.data.getD
        6 0 = img_cand.data.getD 6 0 := by
  have h := (preserve_section_copy_and_frame img_current img_cand
    FMAP_RW_SHARED).1 5 1 5 1 rfl rfl (by decide) (by decide)
  exact ⟨h.1, h.2.2.2.1 0 (by decide), h.2.2.2.2 6 (by right; decide)⟩
